import Mathlib

/-!
Verification development for the AI prescreening recruiter backend.

The definitions below are a shallow embedding of the Python sources:
  * `backend/utils/ai.py`      — fallback question generation on AI-backend failure
  * `backend/utils/speech.py`  — text-to-speech / speech-to-text wrappers
  * `backend/routes/interview.py` — the interview websocket loop, its helper
    coroutines, the `end_interview` route, and the exception handlers.

Byte strings are modelled as `List Nat`; wall-clock datetimes as `Nat`
milliseconds; external collaborators (VAD classifier, gTTS, Whisper, the HF
text-generation call) as function parameters, since each is deterministic in
its input given a fixed environment.  Python's `random.shuffle` is modelled by
an explicit permutation parameter.
-/

/-- A conversation turn, `{"role": ..., "content": ...}` in the Python source. -/
structure ConvTurn where
  role : String
  content : String
deriving DecidableEq, Repr

/-- The parsed-resume dictionary fields read by `ai.py`. -/
structure ResumeData where
  skills : List String
  tools : List String
  languages : List String
  job_description_summary : String

/-- Python `str.strip()`: remove leading and trailing whitespace. -/
def py_strip (s : String) : String :=
  String.mk (((s.data.dropWhile Char.isWhitespace).reverse.dropWhile Char.isWhitespace).reverse)

/-- Python `s.startswith(pre)`. -/
def py_startswith (s pre : String) : Bool :=
  pre.data.isPrefixOf s.data

/-! ## ai.py -/

/-- `base_questions` from `generate_fallback_questions` (ai.py lines 154-162). -/
def base_questions : List String := [
  "Can you walk me through your resume?",
  "What role are you most interested in and why?",
  "Tell me about a technical challenge you solved.",
  "Which of your skills do you use most often?",
  "What do you expect from your next job or team?",
  "Why are you looking for new opportunities?",
  "How do you approach problem-solving at work?"]

/-- The closing statement returned once fallback questions are exhausted
(ai.py lines 77-79). -/
def closing_statement : String :=
  "Thank you for your time today. We\x27ve covered several important aspects of your background and experience. We\x27ll review your responses and get back to you soon about next steps."

/-- The acknowledgment prefix (ai.py line 71). -/
def acknowledgment_prefix : String := "Thank you for sharing that information. "

/-- `generate_fallback_questions` (ai.py lines 153-164): builds the fixed
seven-question list and applies `random.shuffle` to it.  The shuffle outcome is
passed explicitly as `shuffle`; `random.shuffle` can realize any permutation of
the list.  `resume_data` is accepted and ignored, as in the source. -/
def generate_fallback_questions (shuffle : List String → List String)
    (resume_data : ResumeData) : List String :=
  shuffle base_questions

/-- Number of assistant-role turns, `len([t for t in conversation_history if
t["role"] == "assistant"])` (ai.py line 72). -/
def assistant_turns (conversation_history : List ConvTurn) : Nat :=
  (conversation_history.filter (fun t => decide (t.role = "assistant"))).length

/-- `get_ai_interview_response` when the HTTP call always raises, i.e. the
`except` branch at ai.py lines 69-79.  `shuffle` is the permutation realized by
`random.shuffle` inside `generate_fallback_questions`. -/
def get_ai_interview_response_onError (shuffle : List String → List String)
    (parsed_resume_data : ResumeData) (conversation_history : List ConvTurn)
    (current_user_response : String) : String :=
  let acknowledgment :=
    if !conversation_history.isEmpty && !current_user_response.data.isEmpty then
      acknowledgment_prefix
    else ""
  let question_index := assistant_turns conversation_history
  let fallback_questions := generate_fallback_questions shuffle parsed_resume_data
  if question_index < fallback_questions.length then
    acknowledgment ++ fallback_questions.getD question_index ""
  else
    closing_statement

/-! ## speech.py -/

/-- Sentinel returned by `transcribe_audio_bytes` when the Whisper model failed
to load (speech.py lines 27-28). -/
def stt_unavailable_sentinel : String := "Speech-to-Text service unavailable."

/-- `transcribe_audio_bytes` (speech.py lines 26-50).  `whisper_model` is
`none` when model loading failed; otherwise it maps audio bytes to either a
transcription (`Except.ok`) or an exception message (`Except.error`). -/
def transcribe_audio_bytes (whisper_model : Option (List Nat → Except String String))
    (audio_bytes : List Nat) : String :=
  match whisper_model with
  | none => stt_unavailable_sentinel
  | some m =>
    match m audio_bytes with
    | Except.ok t => t
    | Except.error e => "Error: Could not transcribe audio. " ++ e

/-- `text_to_audio_bytes` (speech.py lines 52-70): returns the gTTS bytes, or
the empty byte string when synthesis raised. -/
def text_to_audio_bytes (gtts : String → Option (List Nat)) (text : String) : List Nat :=
  match gtts text with
  | some bs => bs
  | none => []

/-! ## interview.py — constants and message model -/

/-- `AUDIO_SAMPLE_RATE` (interview.py line 37). -/
def AUDIO_SAMPLE_RATE : Nat := 16000
/-- `AUDIO_CHANNELS` (interview.py line 38). -/
def AUDIO_CHANNELS : Nat := 1
/-- `AUDIO_WIDTH` (interview.py line 39). -/
def AUDIO_WIDTH : Nat := 2
/-- `VAD_FRAME_MS` (interview.py line 41). -/
def VAD_FRAME_MS : Nat := 30
/-- `VAD_FRAME_BYTES` (interview.py line 42). -/
def VAD_FRAME_BYTES : Nat := (AUDIO_SAMPLE_RATE * VAD_FRAME_MS / 1000) * AUDIO_WIDTH * AUDIO_CHANNELS
/-- `MAX_QUESTION_EXCHANGES` (interview.py line 44). -/
def MAX_QUESTION_EXCHANGES : Nat := 10
/-- `max_silence_sec` (interview.py line 200), in milliseconds. -/
def max_silence_ms : Nat := 60000
/-- `MAX_INTERVIEW_MINUTES` (interview.py line 43), in milliseconds. -/
def max_interview_ms : Nat := 30 * 60 * 1000

/-- Text strings sent by the websocket handler. -/
def thank_you_text : String := "Thank you for participating in the interview. Have a great day!"
/-- Reminder text in `handle_no_response` (interview.py line 230). -/
def no_response_reminder_text : String := "I didn\x27t hear anything. Please respond if you\x27re ready."
/-- Acknowledgement text in `acknowledge_response` (interview.py line 224). -/
def ack_text : String := "Thank you for your response."
/-- Greeting sent before the first in-socket question (interview.py line 238). -/
def greeting_text : String := "Hello, and thank you for joining the interview. Let\x27s begin."

/-- An outbound websocket message. -/
inductive OutMsg where
  | audio (bytes : List Nat)
  | json_question (text : String)
  | json_reminder (text : String)
  | json_transcript (text : String)
  | json_end (reason : String)
deriving DecidableEq, Repr

/-- An inbound websocket message: binary audio chunk, or a text control
message.  `text true` is a JSON object whose `action` field equals `"end"`;
`text false` is any other text payload (including unparsable JSON), which the
loop ignores. -/
inductive InMsg where
  | text (is_end : Bool)
  | bytes (b : List Nat)
deriving DecidableEq, Repr

/-- The external collaborators of one websocket session, each deterministic in
its input: the VAD classifier, `text_to_audio_bytes` (already composed with the
gTTS outcome, so failure is the empty list), `transcribe_audio_bytes` on the
recorded PCM payload, `get_ai_interview_response`, the parsed resume, and the
wall-clock deadline `start_time + MAX_INTERVIEW_MINUTES` in ms. -/
structure Env where
  vad : List Nat → Bool
  tts : String → List Nat
  stt : List Nat → String
  ai : ResumeData → List ConvTurn → String → String
  resume : ResumeData
  deadline : Nat

/-- Observable state of one interview session: the in-memory loop variables of
`interview_websocket`, the persisted rows (question texts, response texts,
session end time and its commit count), the emitted utterances, the outbound
messages delivered, the ERROR-send attempts of the exception handler, and
whether the session is still in `active_sessions`. -/
structure LoopState where
  audio_buffer_raw : List (List Nat)
  conversation_history : List ConvTurn
  question_count : Nat
  awaiting_response : Bool
  speech_detected : Bool
  silence_start : Option Nat
  last_speech_frame_time : Nat
  db_end_time : Option Nat
  end_time_commits : Nat
  questions : List String
  responses : List String
  utterances : List (List Nat)
  sent : List OutMsg
  error_send_attempts : Nat
  registry_present : Bool
  endedReason : Option String
deriving DecidableEq, Repr

/-- Append successfully delivered outbound messages. -/
def sendAll (msgs : List OutMsg) (st : LoopState) : LoopState :=
  { st with sent := st.sent ++ msgs }

/-- The messages produced by `ask_question` (interview.py lines 217-221): if
the synthesized audio is non-empty, the audio then the question JSON;
otherwise nothing at all is sent. -/
def ask_question_msgs (tts : String → List Nat) (text : String) : List OutMsg :=
  let ai_audio := tts text
  if ai_audio.isEmpty then [] else [OutMsg.audio ai_audio, OutMsg.json_question text]

/-- `ask_question` as a state transformer. -/
def ask_question_st (env : Env) (text : String) (st : LoopState) : LoopState :=
  sendAll (ask_question_msgs env.tts text) st

/-- The messages produced by `acknowledge_response` (interview.py lines
223-227): audio only, skipped when synthesis failed. -/
def ack_msgs (tts : String → List Nat) : List OutMsg :=
  let ai_audio := tts ack_text
  if ai_audio.isEmpty then [] else [OutMsg.audio ai_audio]

/-- `acknowledge_response` as a state transformer. -/
def acknowledge_response (env : Env) (st : LoopState) : LoopState :=
  sendAll (ack_msgs env.tts) st

/-- The messages produced by `handle_no_response` (interview.py lines 229-234):
reminder audio then reminder JSON, skipped entirely when synthesis failed. -/
def reminder_msgs (tts : String → List Nat) : List OutMsg :=
  let ai_audio := tts no_response_reminder_text
  if ai_audio.isEmpty then [] else
    [OutMsg.audio ai_audio, OutMsg.json_reminder no_response_reminder_text]

/-- `handle_no_response` as a state transformer. -/
def handle_no_response (env : Env) (st : LoopState) : LoopState :=
  sendAll (reminder_msgs env.tts) st

/-- `end_session` (interview.py lines 207-215): commit the end time only when
unset, send the thank-you audio (unconditionally) and the end JSON, drop the
session from `active_sessions`, and record the break out of the loop. -/
def end_session (env : Env) (now : Nat) (reason : String) (st : LoopState) : LoopState :=
  let st1 :=
    if st.db_end_time.isNone then
      { st with db_end_time := some now, end_time_commits := st.end_time_commits + 1 }
    else st
  { st1 with
    sent := st1.sent ++ [OutMsg.audio (env.tts thank_you_text), OutMsg.json_end reason],
    registry_present := false,
    endedReason := some reason }

/-- The utterance-completion block (interview.py lines 300-362): when speech
was detected and more than 1000 ms passed since the last speech frame, the
remaining buffer is flushed as one utterance, transcribed, and either rejected
(reminder) or persisted and answered with a new AI question. -/
def utteranceCheck (env : Env) (now : Nat) (st : LoopState) : LoopState :=
  if st.speech_detected && decide (1000 < now - st.last_speech_frame_time) then
    let full_audio := st.audio_buffer_raw.join
    let user_text := env.stt full_audio
    let st1 := sendAll [OutMsg.json_transcript user_text]
      { st with audio_buffer_raw := [], speech_detected := false,
                awaiting_response := false,
                utterances := st.utterances ++ [full_audio] }
    if (py_strip user_text).data.isEmpty || py_startswith user_text "Error" then
      handle_no_response env st1
    else
      let st2 := { st1 with
        responses := st1.responses ++ [user_text],
        conversation_history := st1.conversation_history ++ [ConvTurn.mk "user" user_text] }
      let st3 := acknowledge_response env st2
      let ai_text := env.ai env.resume st3.conversation_history user_text
      let st4 := { st3 with
        questions := st3.questions ++ [ai_text],
        question_count := st3.question_count + 1,
        conversation_history := st3.conversation_history ++ [ConvTurn.mk "assistant" ai_text] }
      let st5 := ask_question_st env ai_text st4
      { st5 with awaiting_response := true }
  else st

/-- The no-response silence block (interview.py lines 291-298) followed by the
utterance block: starting the silence timer falls through to the utterance
check, while firing the reminder executes `continue`. -/
def silenceThenUtterance (env : Env) (now : Nat) (st : LoopState) : LoopState :=
  if st.awaiting_response && !st.speech_detected then
    match st.silence_start with
    | none => utteranceCheck env now { st with silence_start := some now }
    | some s =>
      if max_silence_ms ≤ now - s then
        handle_no_response env { st with silence_start := none }
      else
        utteranceCheck env now st
  else
    utteranceCheck env now st

/-- One iteration of the `while True` loop of `interview_websocket`
(interview.py lines 255-364), driven by the loop-head time `now` (ms) and the
received message.  A state whose `endedReason` is set models the broken loop
and absorbs further input. -/
def wsStep (env : Env) (now : Nat) (msg : InMsg) (st : LoopState) : LoopState :=
  if st.endedReason.isSome then st
  else if decide (env.deadline < now) || decide (MAX_QUESTION_EXCHANGES ≤ st.question_count) then
    end_session env now "Interview complete" st
  else
    match msg with
    | InMsg.text is_end =>
      if is_end then end_session env now "User ended interview" st else st
    | InMsg.bytes b =>
      let stb := { st with audio_buffer_raw := st.audio_buffer_raw ++ [b] }
      if stb.audio_buffer_raw.join.length < VAD_FRAME_BYTES then stb
      else
        let buf := stb.audio_buffer_raw.join
        let frame := buf.take VAD_FRAME_BYTES
        let remainder := buf.drop VAD_FRAME_BYTES
        let st2 := { stb with audio_buffer_raw := [remainder] }
        let st3 :=
          if env.vad frame then
            { st2 with speech_detected := true, last_speech_frame_time := now,
                       silence_start := none }
          else st2
        silenceThenUtterance env now st3

/-- Run the loop over a list of timed inbound messages. -/
def wsRun (env : Env) (inputs : List (Nat × InMsg)) (st : LoopState) : LoopState :=
  inputs.foldl (fun st p => wsStep env p.1 p.2 st) st

/-- In-memory/persisted state created by `start_interview` (interview.py lines
103-149): first question generated from empty history, persisted, the session
registered with `question_count = 1`. -/
def start_interview_state (env : Env) : LoopState :=
  let first_question := env.ai env.resume [] ""
  { audio_buffer_raw := [],
    conversation_history := [ConvTurn.mk "assistant" first_question],
    question_count := 1,
    awaiting_response := false,
    speech_detected := false,
    silence_start := none,
    last_speech_frame_time := 0,
    db_end_time := none,
    end_time_commits := 0,
    questions := [first_question],
    responses := [],
    utterances := [],
    sent := [],
    error_send_attempts := 0,
    registry_present := true,
    endedReason := none }

/-- The pre-loop part of `interview_websocket` (interview.py lines 236-253):
greeting, a second AI question generated, appended to history, persisted,
counter incremented, question sent, `awaiting_response = True`. -/
def ws_prelude (env : Env) (st : LoopState) : LoopState :=
  let st1 := ask_question_st env greeting_text st
  let initial_q := env.ai env.resume st1.conversation_history ""
  let st2 := { st1 with
    conversation_history := st1.conversation_history ++ [ConvTurn.mk "assistant" initial_q],
    questions := st1.questions ++ [initial_q],
    question_count := st1.question_count + 1 }
  let st3 := ask_question_st env initial_q st2
  { st3 with awaiting_response := true }

/-- The `end_interview` HTTP route (interview.py lines 150-163): commit the end
time only when unset, always drop the session from `active_sessions`. -/
def end_interview_route (now : Nat) (st : LoopState) : LoopState :=
  let st1 :=
    if st.db_end_time.isNone then
      { st with db_end_time := some now, end_time_commits := st.end_time_commits + 1 }
    else st
  { st1 with registry_present := false }

/-- The `except WebSocketDisconnect` handler (interview.py lines 366-369): the
end time is assigned and committed unconditionally, the session dropped, and
nothing is sent. -/
def on_ws_disconnect (now : Nat) (st : LoopState) : LoopState :=
  { st with db_end_time := some now, end_time_commits := st.end_time_commits + 1,
            registry_present := false }

/-- The `except Exception` handler (interview.py lines 371-377): it first
attempts `websocket.send_text("ERROR: ...")`; only if that send succeeds does
it set the end time when unset and drop the session — a failing send raises
out of the handler, skipping both. -/
def on_ws_exception (send_ok : Bool) (now : Nat) (st : LoopState) : LoopState :=
  let st1 := { st with error_send_attempts := st.error_send_attempts + 1 }
  if send_ok then
    let st2 :=
      if st1.db_end_time.isNone then
        { st1 with db_end_time := some now, end_time_commits := st1.end_time_commits + 1 }
      else st1
    { st2 with registry_present := false }
  else st1

/-- Count of reminder messages in an outbound log. -/
def reminderCount (l : List OutMsg) : Nat :=
  (l.filter fun m => match m with | OutMsg.json_reminder _ => true | _ => false).length

/-- Count of transcript messages in an outbound log. -/
def transcriptCount (l : List OutMsg) : Nat :=
  (l.filter fun m => match m with | OutMsg.json_transcript _ => true | _ => false).length

/-! ## Concrete inputs used by counterexamples and witnesses -/

/-- A resume dictionary with no extracted fields. -/
def sampleResume : ResumeData := ⟨[], [], [], "Not specified"⟩

/-- One 30 ms VAD frame of PCM silence (960 zero bytes). -/
def silent_frame : List Nat := List.replicate VAD_FRAME_BYTES 0

/-- One 30 ms VAD frame of non-silent PCM (960 bytes of value 1). -/
def speech_frame : List Nat := List.replicate VAD_FRAME_BYTES 1

/-- An environment whose VAD classifies a frame as speech iff it has a nonzero
byte, with working TTS/AI collaborators and a transcriber returning the empty
string. -/
def anyNonzeroEnv : Env :=
  { vad := fun f => f.any (fun x => x != 0),
    tts := fun _ => [7],
    stt := fun _ => "",
    ai := fun _ _ _ => "next question",
    resume := sampleResume,
    deadline := max_interview_ms }

/-- An environment whose VAD classifies every frame as non-speech. -/
def silentEnv : Env :=
  { vad := fun _ => false,
    tts := fun _ => [7],
    stt := fun _ => "",
    ai := fun _ _ _ => "next question",
    resume := sampleResume,
    deadline := max_interview_ms }

/-- An environment in which the Whisper model failed to load, so transcription
always returns the unavailability sentinel. -/
def whisperDownEnv : Env :=
  { vad := fun _ => false,
    tts := fun _ => [7],
    stt := fun a => transcribe_audio_bytes none a,
    ai := fun _ _ _ => "next question",
    resume := sampleResume,
    deadline := max_interview_ms }

/-- An environment with all collaborators healthy. -/
def liveEnv : Env :=
  { vad := fun _ => false,
    tts := fun _ => [7],
    stt := fun _ => "I worked on backend services.",
    ai := fun _ _ _ => "next question",
    resume := sampleResume,
    deadline := max_interview_ms }

/-- The loop state right after a question was asked inside the websocket loop:
two questions persisted, counter at 2, awaiting the candidate. -/
def postQuestionState : LoopState :=
  { audio_buffer_raw := [],
    conversation_history := [ConvTurn.mk "assistant" "q1", ConvTurn.mk "assistant" "q2"],
    question_count := 2,
    awaiting_response := true,
    speech_detected := false,
    silence_start := none,
    last_speech_frame_time := 0,
    db_end_time := none,
    end_time_commits := 0,
    questions := ["q1", "q2"],
    responses := [],
    utterances := [],
    sent := [],
    error_send_attempts := 0,
    registry_present := true,
    endedReason := none }

/-- `postQuestionState` mid-utterance: speech was detected at t = 10 ms and the
drained remainder in the buffer is empty. -/
def preUtteranceState : LoopState :=
  { postQuestionState with speech_detected := true, last_speech_frame_time := 10,
                           audio_buffer_raw := [[]] }

/-- The run of claim C3's scenario: one silent frame, one speech-classified
frame, then a silent frame more than 1000 ms after the last speech frame. -/
def c3run : LoopState :=
  wsRun anyNonzeroEnv
    [(0, InMsg.bytes silent_frame), (10, InMsg.bytes speech_frame), (2000, InMsg.bytes silent_frame)]
    postQuestionState

/-- The run of claim C6's counterexample: silence-only frames spanning more
than two 60-second windows after a question. -/
def c6run : LoopState :=
  wsRun silentEnv
    [(0, InMsg.bytes silent_frame), (60000, InMsg.bytes silent_frame),
     (60010, InMsg.bytes silent_frame), (120020, InMsg.bytes silent_frame)]
    postQuestionState

/-- The state after the reject path of claim C5's scenario: an utterance
completed at t = 2000 ms whose transcription is empty. -/
def c5AfterReject : LoopState := utteranceCheck silentEnv 2000 preUtteranceState

/-- `c5AfterReject` followed by two further silent frames 130+ seconds later. -/
def c5LaterSilence : LoopState :=
  wsRun silentEnv [(70000, InMsg.bytes silent_frame), (140000, InMsg.bytes silent_frame)]
    c5AfterReject

/-- A gTTS collaborator that always raises. -/
def failing_gtts : String → Option (List Nat) := fun _ => none

/-- `postQuestionState` with the session end time already committed once. -/
def endTimeSetState : LoopState :=
  { postQuestionState with db_end_time := some 5, end_time_commits := 1 }

/-- `silentEnv` with an always-failing speech synthesizer. -/
def mutedTtsEnv : Env :=
  { silentEnv with tts := fun t => text_to_audio_bytes failing_gtts t }

/-- `postQuestionState` with the question counter at the configured ceiling. -/
def maxedState : LoopState :=
  { postQuestionState with question_count := MAX_QUESTION_EXCHANGES }

/-- `postQuestionState` with the silence timer started at t = 0. -/
def silenceTimedState : LoopState :=
  { postQuestionState with silence_start := some 0 }

/-- Session invariant relating the question counter to the number of persisted
responses once the websocket prelude has run. -/
def sessionInv (st : LoopState) : Prop :=
  st.question_count = 2 + st.responses.length ∧ st.question_count ≤ MAX_QUESTION_EXCHANGES

/-! ## Helper lemmas -/

theorem reminderCount_append (l1 l2 : List OutMsg) :
    reminderCount (l1 ++ l2) = reminderCount l1 + reminderCount l2 := by
  simp [reminderCount, List.filter_append]

theorem transcriptCount_append (l1 l2 : List OutMsg) :
    transcriptCount (l1 ++ l2) = transcriptCount l1 + transcriptCount l2 := by
  simp [transcriptCount, List.filter_append]

theorem reminderCount_reminder_msgs (tts : String → List Nat) (h : tts no_response_reminder_text ≠ []) :
    reminderCount (reminder_msgs tts) = 1 := by
  unfold reminder_msgs
  simp only [List.isEmpty_iff]
  split
  · exact absurd (by assumption) h
  · rfl

theorem utteranceCheck_preserves (env : Env) (now : Nat) (st : LoopState) :
    (utteranceCheck env now st).endedReason = st.endedReason ∧
    (utteranceCheck env now st).db_end_time = st.db_end_time ∧
    (utteranceCheck env now st).end_time_commits = st.end_time_commits ∧
    (utteranceCheck env now st).registry_present = st.registry_present ∧
    st.question_count ≤ (utteranceCheck env now st).question_count ∧
    (utteranceCheck env now st).question_count ≤ st.question_count + 1 := by
  simp only [utteranceCheck, handle_no_response, acknowledge_response, ask_question_st, sendAll]
  split
  · split
    · exact ⟨rfl, rfl, rfl, rfl, Nat.le_refl _, Nat.le_succ _⟩
    · exact ⟨rfl, rfl, rfl, rfl, Nat.le_succ _, Nat.le_refl _⟩
  · exact ⟨rfl, rfl, rfl, rfl, Nat.le_refl _, Nat.le_succ _⟩

theorem silenceThenUtterance_preserves (env : Env) (now : Nat) (st : LoopState) :
    (silenceThenUtterance env now st).endedReason = st.endedReason ∧
    (silenceThenUtterance env now st).db_end_time = st.db_end_time ∧
    (silenceThenUtterance env now st).end_time_commits = st.end_time_commits ∧
    (silenceThenUtterance env now st).registry_present = st.registry_present ∧
    st.question_count ≤ (silenceThenUtterance env now st).question_count ∧
    (silenceThenUtterance env now st).question_count ≤ st.question_count + 1 := by
  unfold silenceThenUtterance
  split
  · split
    · exact utteranceCheck_preserves env now _
    · split
      · exact ⟨rfl, rfl, rfl, rfl, Nat.le_refl _, Nat.le_succ _⟩
      · exact utteranceCheck_preserves env now _
  · exact utteranceCheck_preserves env now _

theorem end_session_fields (env : Env) (now : Nat) (reason : String) (st : LoopState) :
    (end_session env now reason st).question_count = st.question_count ∧
    (end_session env now reason st).responses = st.responses ∧
    (end_session env now reason st).endedReason = some reason ∧
    (end_session env now reason st).registry_present = false ∧
    (end_session env now reason st).db_end_time.isSome = true ∧
    OutMsg.json_end reason ∈ (end_session env now reason st).sent := by
  refine ⟨?_, ?_, ?_, ?_, ?_, ?_⟩ <;>
    cases hv : st.db_end_time <;>
      simp [end_session, hv]

theorem end_session_end_time_set (env : Env) (now t : Nat) (reason : String) (st : LoopState)
    (h : st.db_end_time = some t) :
    (end_session env now reason st).db_end_time = some t ∧
    (end_session env now reason st).end_time_commits = st.end_time_commits := by
  constructor <;> simp [end_session, h]

theorem wsStep_count_mono (env : Env) (now : Nat) (msg : InMsg) (st : LoopState) :
    st.question_count ≤ (wsStep env now msg st).question_count := by
  simp only [wsStep]
  split
  · exact Nat.le_refl _
  · split
    · exact Nat.le_of_eq (end_session_fields env now _ st).1.symm
    · split
      · split
        · exact Nat.le_of_eq (end_session_fields env now _ st).1.symm
        · exact Nat.le_refl _
      · split
        · exact Nat.le_refl _
        · split
          · refine le_trans (Nat.le_of_eq ?_) ((silenceThenUtterance_preserves env now _).2.2.2.2.1)
            rfl
          · refine le_trans (Nat.le_of_eq ?_) ((silenceThenUtterance_preserves env now _).2.2.2.2.1)
            rfl

theorem wsStep_ends (env : Env) (now : Nat) (msg : InMsg) (st : LoopState)
    (hend : st.endedReason = none) (hcount : MAX_QUESTION_EXCHANGES ≤ st.question_count) :
    wsStep env now msg st = end_session env now "Interview complete" st := by
  simp only [wsStep]
  split
  · rename_i h
    rw [hend] at h
    simp at h
  · split
    · rfl
    · rename_i h
      rw [Bool.or_eq_true, decide_eq_true_eq, decide_eq_true_eq] at h
      exact absurd (Or.inr hcount) h

theorem wsStep_no_end (env : Env) (now : Nat) (msg : InMsg) (st : LoopState)
    (hend : st.endedReason = none) (htime : now ≤ env.deadline)
    (hcount : st.question_count < MAX_QUESTION_EXCHANGES) (hmsg : msg ≠ InMsg.text true) :
    (wsStep env now msg st).endedReason = none := by
  cases msg with
  | text is_end =>
    cases is_end with
    | true => exact absurd rfl hmsg
    | false =>
      simp only [wsStep]
      split
      · exact hend
      · split
        · rename_i h
          rw [Bool.or_eq_true, decide_eq_true_eq, decide_eq_true_eq] at h
          rcases h with h | h
          · exact absurd h (Nat.not_lt.mpr htime)
          · exact absurd h (Nat.not_le.mpr hcount)
        · exact hend
  | bytes b =>
    simp only [wsStep]
    split
    · exact hend
    · split
      · rename_i h
        rw [Bool.or_eq_true, decide_eq_true_eq, decide_eq_true_eq] at h
        rcases h with h | h
        · exact absurd h (Nat.not_lt.mpr htime)
        · exact absurd h (Nat.not_le.mpr hcount)
      · split
        · exact hend
        · split
          · exact ((silenceThenUtterance_preserves env now _).1).trans hend
          · exact ((silenceThenUtterance_preserves env now _).1).trans hend

theorem utteranceCheck_inv (env : Env) (now : Nat) (st : LoopState)
    (h : st.question_count = 2 + st.responses.length) :
    (utteranceCheck env now st).question_count = 2 + (utteranceCheck env now st).responses.length := by
  simp only [utteranceCheck, handle_no_response, acknowledge_response, ask_question_st, sendAll]
  split
  · split
    · simpa using h
    · simp only [List.length_append, List.length_cons, List.length_nil]
      omega
  · exact h

theorem silenceThenUtterance_inv (env : Env) (now : Nat) (st : LoopState)
    (h : st.question_count = 2 + st.responses.length) :
    (silenceThenUtterance env now st).question_count =
      2 + (silenceThenUtterance env now st).responses.length := by
  unfold silenceThenUtterance
  split
  · split
    · exact utteranceCheck_inv env now _ h
    · split
      · exact h
      · exact utteranceCheck_inv env now _ h
  · exact utteranceCheck_inv env now _ h

theorem end_session_inv (env : Env) (now : Nat) (reason : String) (st : LoopState)
    (h : sessionInv st) : sessionInv (end_session env now reason st) := by
  obtain ⟨h1, h2⟩ := h
  have hf := end_session_fields env now reason st
  exact ⟨by rw [hf.1, hf.2.1]; exact h1, by rw [hf.1]; exact h2⟩

theorem wsStep_inv (env : Env) (now : Nat) (msg : InMsg) (st : LoopState)
    (h : sessionInv st) : sessionInv (wsStep env now msg st) := by
  obtain ⟨h1, h2⟩ := h
  simp only [wsStep]
  split
  · exact ⟨h1, h2⟩
  · split
    · exact end_session_inv env now _ st ⟨h1, h2⟩
    · rename_i hc
      rw [Bool.or_eq_true, decide_eq_true_eq, decide_eq_true_eq] at hc
      have hlt : st.question_count < MAX_QUESTION_EXCHANGES := by
        by_contra hx
        exact hc (Or.inr (Nat.le_of_not_lt hx))
      cases msg with
      | text is_end =>
        dsimp only
        split
        · exact end_session_inv env now _ st ⟨h1, h2⟩
        · exact ⟨h1, h2⟩
      | bytes b =>
        dsimp only
        split
        · exact ⟨h1, h2⟩
        · split
          · refine ⟨silenceThenUtterance_inv env now _ h1, ?_⟩
            refine le_trans ((silenceThenUtterance_preserves env now _).2.2.2.2.2) ?_
            show st.question_count + 1 ≤ MAX_QUESTION_EXCHANGES
            omega
          · refine ⟨silenceThenUtterance_inv env now _ h1, ?_⟩
            refine le_trans ((silenceThenUtterance_preserves env now _).2.2.2.2.2) ?_
            show st.question_count + 1 ≤ MAX_QUESTION_EXCHANGES
            omega

theorem wsRun_inv (env : Env) (inputs : List (Nat × InMsg)) (st : LoopState)
    (h : sessionInv st) : sessionInv (wsRun env inputs st) := by
  induction inputs generalizing st with
  | nil => exact h
  | cons p rest ih => exact ih _ (wsStep_inv env p.1 p.2 st h)

theorem wsStep_end_time_set (env : Env) (now : Nat) (msg : InMsg) (st : LoopState) (t : Nat)
    (h : st.db_end_time = some t) :
    (wsStep env now msg st).db_end_time = some t ∧
    (wsStep env now msg st).end_time_commits = st.end_time_commits := by
  simp only [wsStep]
  split
  · exact ⟨h, rfl⟩
  · split
    · exact end_session_end_time_set env now t _ st h
    · cases msg with
      | text is_end =>
        dsimp only
        split
        · exact end_session_end_time_set env now t _ st h
        · exact ⟨h, rfl⟩
      | bytes b =>
        dsimp only
        split
        · exact ⟨h, rfl⟩
        · split
          · exact ⟨((silenceThenUtterance_preserves env now _).2.1).trans h,
                   (silenceThenUtterance_preserves env now _).2.2.1⟩
          · exact ⟨((silenceThenUtterance_preserves env now _).2.1).trans h,
                   (silenceThenUtterance_preserves env now _).2.2.1⟩

/-! ## Claim C1 -/

/-- C1 counterexample: with the AI backend always raising, two legitimate
outcomes of `random.shuffle` (the identity and the reversal, both permutations
of the base list) make `get_ai_interview_response` return different fallback
questions on the same resume input and the same (0th) assistant turn — the
fallback question is not deterministic in the inputs, and is not the fixed
k-th base question. -/
theorem C1_counterexample :
    (List.reverse base_questions).Perm base_questions ∧
    get_ai_interview_response_onError id sampleResume [] "" =
      "Can you walk me through your resume?" ∧
    get_ai_interview_response_onError List.reverse sampleResume [] "" =
      "How do you approach problem-solving at work?" ∧
    decide (get_ai_interview_response_onError id sampleResume [] "" =
      get_ai_interview_response_onError List.reverse sampleResume [] "") = false := by
  exact ⟨List.reverse_perm base_questions, by decide, by decide, by decide⟩

/-- C1 (amended): with an always-raising backend, on the k-th assistant turn
(k = number of assistant entries of the history) the function returns the
acknowledgment prefix (exactly when history and latest user response are both
non-empty) followed by the element at index k of the *shuffled* seven-question
pool — some member of the fixed pool, which member depending on the shuffle —
and the fixed closing statement once k reaches the pool size, for any
resume-data input. -/
theorem C1_theorem (shuffle : List String → List String)
    (hperm : (shuffle base_questions).Perm base_questions)
    (rd : ResumeData) (hist : List ConvTurn) (resp : String) :
    (assistant_turns hist < base_questions.length →
      ∃ q ∈ base_questions,
        get_ai_interview_response_onError shuffle rd hist resp =
          (if !hist.isEmpty && !resp.data.isEmpty then acknowledgment_prefix else "") ++ q) ∧
    (base_questions.length ≤ assistant_turns hist →
      get_ai_interview_response_onError shuffle rd hist resp = closing_statement) := by
  have hlen : (shuffle base_questions).length = base_questions.length := hperm.length_eq
  constructor
  · intro hk
    have hk' : assistant_turns hist < (shuffle base_questions).length := by
      rw [hlen]; exact hk
    refine ⟨(shuffle base_questions).getD (assistant_turns hist) "", ?_, ?_⟩
    · apply hperm.subset
      rw [List.getD_eq_getElem _ _ hk']
      exact List.getElem_mem _
    · simp only [get_ai_interview_response_onError, generate_fallback_questions]
      rw [if_pos hk']
  · intro hk
    simp only [get_ai_interview_response_onError, generate_fallback_questions]
    rw [if_neg (by rw [hlen]; exact Nat.not_lt.mpr hk)]

/-- C1 witness: the amended theorem applied at concrete shuffles and inputs. -/
theorem C1_witness :
    (∃ q ∈ base_questions,
      get_ai_interview_response_onError id sampleResume [] "" =
        (if !(List.isEmpty ([] : List ConvTurn)) && !("".data.isEmpty) then
          acknowledgment_prefix else "") ++ q) ∧
    get_ai_interview_response_onError List.reverse sampleResume
      (List.replicate 7 (ConvTurn.mk "assistant" "q")) "" = closing_statement := by
  constructor
  · exact (C1_theorem id (List.Perm.refl _) sampleResume [] "").1 (by decide)
  · exact (C1_theorem List.reverse (List.reverse_perm base_questions) sampleResume
      (List.replicate 7 (ConvTurn.mk "assistant" "q")) "").2 (by decide)

/-! ## Claim C2 -/

/-- C2 counterexample: with the session end time already committed as `some 5`,
the transport-disconnect handler overwrites it with the disconnect time `9`
and performs an additional persistence write. -/
theorem C2_counterexample :
    endTimeSetState.db_end_time = some 5 ∧
    endTimeSetState.end_time_commits = 1 ∧
    (on_ws_disconnect 9 endTimeSetState).db_end_time = some 9 ∧
    (on_ws_disconnect 9 endTimeSetState).end_time_commits = 2 :=
  ⟨rfl, rfl, rfl, rfl⟩

/-- C2 (amended): once the end time is set, the `end_interview` route, the
loop's `end_session`, the generic exception handler (whether or not its ERROR
send succeeds), and every loop iteration leave it unchanged and perform no
additional persistence write; the transport-disconnect handler, however,
unconditionally overwrites it with the disconnect time and commits again. -/
theorem C2_theorem (now t : Nat) (st : LoopState) (h : st.db_end_time = some t) :
    ((end_interview_route now st).db_end_time = some t ∧
     (end_interview_route now st).end_time_commits = st.end_time_commits) ∧
    (∀ (env : Env) (reason : String),
     (end_session env now reason st).db_end_time = some t ∧
     (end_session env now reason st).end_time_commits = st.end_time_commits) ∧
    ((on_ws_exception true now st).db_end_time = some t ∧
     (on_ws_exception true now st).end_time_commits = st.end_time_commits) ∧
    ((on_ws_exception false now st).db_end_time = some t ∧
     (on_ws_exception false now st).end_time_commits = st.end_time_commits) ∧
    (∀ (env : Env) (msg : InMsg),
     (wsStep env now msg st).db_end_time = some t ∧
     (wsStep env now msg st).end_time_commits = st.end_time_commits) ∧
    ((on_ws_disconnect now st).db_end_time = some now ∧
     (on_ws_disconnect now st).end_time_commits = st.end_time_commits + 1) := by
  refine ⟨⟨?_, ?_⟩, fun env reason => end_session_end_time_set env now t reason st h,
          ⟨?_, ?_⟩, ⟨?_, ?_⟩, fun env msg => wsStep_end_time_set env now msg st t h,
          ⟨rfl, rfl⟩⟩ <;>
    simp [end_interview_route, on_ws_exception, h]

/-- C2 witness: the amended theorem applied at a concrete state whose end time
is already set. -/
theorem C2_witness :
    (end_interview_route 9 endTimeSetState).db_end_time = some 5 ∧
    (end_session silentEnv 9 "User ended interview" endTimeSetState).db_end_time = some 5 ∧
    (on_ws_disconnect 9 endTimeSetState).db_end_time = some 9 := by
  have h := C2_theorem 9 5 endTimeSetState rfl
  exact ⟨h.1.1, (h.2.1 silentEnv "User ended interview").1, h.2.2.2.2.2.1⟩

/-! ## Claim C7 -/

/-- C7 counterexample: an unhandled failure on a severed channel (the
handler's ERROR send fails) leaves the end time unset and the runtime state in
the registry, after attempting one further send on the severed channel. -/
theorem C7_counterexample :
    postQuestionState.db_end_time = none ∧
    (on_ws_exception false 7 postQuestionState).error_send_attempts = 1 ∧
    (on_ws_exception false 7 postQuestionState).db_end_time = none ∧
    (on_ws_exception false 7 postQuestionState).registry_present = true :=
  ⟨rfl, rfl, rfl, rfl⟩

/-- C7 (amended): on transport disconnect the end time is written, the runtime
state discarded and nothing further is sent; on any other unhandled failure
the handler first attempts to send an ERROR text — if that send succeeds the
end time is set (if unset) and the runtime state discarded, but if the channel
is severed the attempt is still made and the handler aborts, leaving end time
and runtime state untouched. -/
theorem C7_theorem (now : Nat) (st : LoopState) :
    ((on_ws_disconnect now st).db_end_time = some now ∧
     (on_ws_disconnect now st).registry_present = false ∧
     (on_ws_disconnect now st).error_send_attempts = st.error_send_attempts ∧
     (on_ws_disconnect now st).sent = st.sent) ∧
    ((on_ws_exception true now st).db_end_time.isSome = true ∧
     (on_ws_exception true now st).registry_present = false ∧
     (on_ws_exception true now st).error_send_attempts = st.error_send_attempts + 1) ∧
    ((on_ws_exception false now st).db_end_time = st.db_end_time ∧
     (on_ws_exception false now st).registry_present = st.registry_present ∧
     (on_ws_exception false now st).error_send_attempts = st.error_send_attempts + 1) := by
  refine ⟨⟨rfl, rfl, rfl, rfl⟩, ?_, ⟨rfl, rfl, rfl⟩⟩
  cases hv : st.db_end_time <;> simp [on_ws_exception, hv]

/-! ## Claim C8 -/

/-- C8 counterexample: when synthesis fails (empty bytes), `ask_question`
sends nothing at all — in particular it does not send the text-only question
message. -/
theorem C8_counterexample :
    text_to_audio_bytes failing_gtts "Tell me about yourself." = [] ∧
    ask_question_msgs (text_to_audio_bytes failing_gtts) "Tell me about yourself." = [] ∧
    (ask_question_msgs (text_to_audio_bytes failing_gtts) "Tell me about yourself.").contains
      (OutMsg.json_question "Tell me about yourself.") = false :=
  ⟨rfl, rfl, rfl⟩

/-- C8 (amended): failed synthesis does return empty bytes, as claimed; but
for a question whose synthesis is empty the caller sends neither the audio nor
the text-only message — the question is silently dropped. -/
theorem C8_theorem :
    (∀ (gtts : String → Option (List Nat)) (text : String),
       gtts text = none → text_to_audio_bytes gtts text = []) ∧
    (∀ (tts : String → List Nat) (text : String),
       tts text = [] → ask_question_msgs tts text = []) ∧
    (∀ (env : Env) (text : String) (st : LoopState),
       env.tts text = [] → (ask_question_st env text st).sent = st.sent) := by
  refine ⟨?_, ?_, ?_⟩
  · intro g t h
    simp [text_to_audio_bytes, h]
  · intro tts t h
    simp [ask_question_msgs, h]
  · intro env t st h
    simp [ask_question_st, ask_question_msgs, sendAll, h]

/-- C8 witness: the amended theorem applied to an always-failing gTTS. -/
theorem C8_witness :
    text_to_audio_bytes failing_gtts "Q" = [] ∧
    ask_question_msgs (fun t => text_to_audio_bytes failing_gtts t) "Q" = [] ∧
    (ask_question_st mutedTtsEnv "Q" postQuestionState).sent = postQuestionState.sent := by
  refine ⟨C8_theorem.1 failing_gtts "Q" rfl,
          C8_theorem.2.1 _ "Q" (C8_theorem.1 failing_gtts "Q" rfl),
          C8_theorem.2.2 _ "Q" postQuestionState (C8_theorem.1 failing_gtts "Q" rfl)⟩

theorem ask_question_msgs_of_tts (tts : String → List Nat) (text : String)
    (h : tts text ≠ []) :
    ask_question_msgs tts text = [OutMsg.audio (tts text), OutMsg.json_question text] := by
  unfold ask_question_msgs
  rw [if_neg]
  simpa using h

theorem reminder_msgs_of_tts (tts : String → List Nat)
    (h : tts no_response_reminder_text ≠ []) :
    reminder_msgs tts = [OutMsg.audio (tts no_response_reminder_text),
      OutMsg.json_reminder no_response_reminder_text] := by
  unfold reminder_msgs
  rw [if_neg]
  simpa using h

/-! ## Claim C4 -/

/-- C4: within a session the question counter is monotonically non-decreasing
at every loop iteration, and — in iterations not ended earlier by the
wall-clock deadline or an explicit end message — the loop transitions to the
terminal ended state exactly when the counter has reached
`MAX_QUESTION_EXCHANGES`, at which point the end time is set, the end signal
is sent, and the runtime state is discarded. -/
theorem C4_theorem :
    (∀ (env : Env) (now : Nat) (msg : InMsg) (st : LoopState),
       st.question_count ≤ (wsStep env now msg st).question_count) ∧
    (∀ (env : Env) (now : Nat) (msg : InMsg) (st : LoopState),
       st.endedReason = none → now ≤ env.deadline → msg ≠ InMsg.text true →
       (((wsStep env now msg st).endedReason.isSome = true) ↔
          MAX_QUESTION_EXCHANGES ≤ st.question_count) ∧
       (MAX_QUESTION_EXCHANGES ≤ st.question_count →
          (wsStep env now msg st).endedReason = some "Interview complete" ∧
          (wsStep env now msg st).db_end_time.isSome = true ∧
          (wsStep env now msg st).registry_present = false ∧
          OutMsg.json_end "Interview complete" ∈ (wsStep env now msg st).sent)) := by
  refine ⟨wsStep_count_mono, ?_⟩
  intro env now msg st hend htime hmsg
  by_cases hM : MAX_QUESTION_EXCHANGES ≤ st.question_count
  · have he := wsStep_ends env now msg st hend hM
    have hf := end_session_fields env now "Interview complete" st
    rw [he]
    refine ⟨⟨fun _ => hM, fun _ => by rw [hf.2.2.1]; rfl⟩,
            fun _ => ⟨hf.2.2.1, hf.2.2.2.2.1, hf.2.2.2.1, hf.2.2.2.2.2⟩⟩
  · have hn := wsStep_no_end env now msg st hend htime (Nat.lt_of_not_le hM) hmsg
    refine ⟨?_, fun hx => absurd hx hM⟩
    rw [hn]
    simp [hM]

/-- C4 witness: the theorem applied at a below-ceiling state and at a state
whose counter reached the ceiling. -/
theorem C4_witness :
    postQuestionState.question_count ≤
      (wsStep silentEnv 0 (InMsg.text false) postQuestionState).question_count ∧
    (((wsStep silentEnv 0 (InMsg.text false) maxedState).endedReason.isSome = true) ↔
       MAX_QUESTION_EXCHANGES ≤ maxedState.question_count) ∧
    (wsStep silentEnv 0 (InMsg.text false) maxedState).endedReason =
      some "Interview complete" := by
  have h1 := C4_theorem.1 silentEnv 0 (InMsg.text false) postQuestionState
  have h2 := C4_theorem.2 silentEnv 0 (InMsg.text false) maxedState rfl (by decide) (by decide)
  exact ⟨h1, h2.1, (h2.2 (by decide)).1⟩

/-! ## Claim C10 -/

/-- C10: `start_interview` registers the session with counter 1 and one
persisted question; opening the websocket generates, persists and sends a
second AI question, moving the counter from 1 to 2 before any candidate audio
is handled; consequently at most `MAX_QUESTION_EXCHANGES - 2` candidate
answers are persisted before the ceiling terminates the session. -/
theorem C10_theorem (env : Env) (htts : ∀ t, env.tts t ≠ []) :
    (start_interview_state env).question_count = 1 ∧
    (start_interview_state env).questions = [env.ai env.resume [] ""] ∧
    (ws_prelude env (start_interview_state env)).question_count = 2 ∧
    (ws_prelude env (start_interview_state env)).questions =
      [env.ai env.resume [] "",
       env.ai env.resume [ConvTurn.mk "assistant" (env.ai env.resume [] "")] ""] ∧
    OutMsg.json_question
        (env.ai env.resume [ConvTurn.mk "assistant" (env.ai env.resume [] "")] "")
      ∈ (ws_prelude env (start_interview_state env)).sent ∧
    ∀ inputs : List (Nat × InMsg),
      (wsRun env inputs (ws_prelude env (start_interview_state env))).responses.length ≤
        MAX_QUESTION_EXCHANGES - 2 := by
  refine ⟨rfl, rfl, rfl, rfl, ?_, ?_⟩
  · have e : (ws_prelude env (start_interview_state env)).sent =
        ([] ++ ask_question_msgs env.tts greeting_text) ++
          ask_question_msgs env.tts
            (env.ai env.resume [ConvTurn.mk "assistant" (env.ai env.resume [] "")] "") := rfl
    rw [e]
    refine List.mem_append.mpr (Or.inr ?_)
    rw [ask_question_msgs_of_tts env.tts _ (htts _)]
    simp
  · intro inputs
    have hinv := wsRun_inv env inputs (ws_prelude env (start_interview_state env))
      ⟨rfl, (by decide : (2 : Nat) ≤ MAX_QUESTION_EXCHANGES)⟩
    obtain ⟨h1, h2⟩ := hinv
    omega

/-- C10 witness: the theorem applied to a fully healthy environment. -/
theorem C10_witness :
    (start_interview_state liveEnv).question_count = 1 ∧
    (ws_prelude liveEnv (start_interview_state liveEnv)).question_count = 2 ∧
    (wsRun liveEnv [] (ws_prelude liveEnv (start_interview_state liveEnv))).responses.length ≤
      MAX_QUESTION_EXCHANGES - 2 := by
  have h := C10_theorem liveEnv (fun t => List.cons_ne_nil 7 [])
  exact ⟨h.1, h.2.2.1, h.2.2.2.2.2 []⟩

theorem utteranceCheck_no_speech (env : Env) (now : Nat) (st : LoopState)
    (hsp : st.speech_detected = false) : utteranceCheck env now st = st := by
  have hc : ¬((st.speech_detected && decide (1000 < now - st.last_speech_frame_time)) = true) := by
    rw [hsp]
    simp
  unfold utteranceCheck
  rw [if_neg hc]

theorem transcriptCount_reminder_msgs (tts : String → List Nat) :
    transcriptCount (reminder_msgs tts) = 0 := by
  simp only [reminder_msgs]
  split <;> rfl

theorem silenceThenUtterance_silent_fields (env : Env) (now : Nat) (st : LoopState)
    (hsp : st.speech_detected = false) :
    (silenceThenUtterance env now st).responses = st.responses ∧
    (silenceThenUtterance env now st).question_count = st.question_count ∧
    (silenceThenUtterance env now st).speech_detected = false ∧
    (silenceThenUtterance env now st).endedReason = st.endedReason ∧
    transcriptCount (silenceThenUtterance env now st).sent = transcriptCount st.sent := by
  unfold silenceThenUtterance
  split
  · split
    · rw [utteranceCheck_no_speech env now { st with silence_start := some now } hsp]
      exact ⟨rfl, rfl, hsp, rfl, rfl⟩
    · split
      · refine ⟨rfl, rfl, hsp, rfl, ?_⟩
        show transcriptCount (st.sent ++ reminder_msgs env.tts) = transcriptCount st.sent
        simp [transcriptCount_append, transcriptCount_reminder_msgs]
      · rw [utteranceCheck_no_speech env now st hsp]
        exact ⟨rfl, rfl, hsp, rfl, rfl⟩
  · rw [utteranceCheck_no_speech env now st hsp]
    exact ⟨rfl, rfl, hsp, rfl, rfl⟩

/-! ## Claim C5 -/

set_option maxRecDepth 1000000 in
/-- C5 counterexample: after an utterance whose transcription is empty, the
handler does send the immediate reminder, but the loop is *not* back in the
awaiting-response state: the flag stays false, and 130 further seconds of
silence produce no additional reminder (it would in `AWAITING_RESPONSE`). -/
theorem C5_counterexample :
    c5AfterReject.awaiting_response = false ∧
    reminderCount c5AfterReject.sent = 1 ∧
    c5AfterReject.question_count = preUtteranceState.question_count ∧
    c5AfterReject.responses = preUtteranceState.responses ∧
    reminderCount c5LaterSilence.sent = 1 := by
  decide

/-- C5 (amended): for a completed utterance whose transcription is
empty/whitespace or starts with "Error", the handler sends the transcript
message and the reminder, leaves counter, questions, responses and history
unchanged and the loop alive — but it does not restore the awaiting-response
flag, so the 60-second no-response reminder stays disabled until the next
question is asked. -/
theorem C5_theorem (env : Env) (now : Nat) (st : LoopState)
    (hsp : st.speech_detected = true)
    (ht : 1000 < now - st.last_speech_frame_time)
    (hrej : ((py_strip (env.stt st.audio_buffer_raw.join)).data.isEmpty
              || py_startswith (env.stt st.audio_buffer_raw.join) "Error") = true) :
    (utteranceCheck env now st).question_count = st.question_count ∧
    (utteranceCheck env now st).responses = st.responses ∧
    (utteranceCheck env now st).questions = st.questions ∧
    (utteranceCheck env now st).conversation_history = st.conversation_history ∧
    (utteranceCheck env now st).endedReason = st.endedReason ∧
    (utteranceCheck env now st).sent =
      (st.sent ++ [OutMsg.json_transcript (env.stt st.audio_buffer_raw.join)])
        ++ reminder_msgs env.tts ∧
    (utteranceCheck env now st).awaiting_response = false ∧
    (utteranceCheck env now st).speech_detected = false := by
  have hc : (st.speech_detected && decide (1000 < now - st.last_speech_frame_time)) = true := by
    rw [hsp]
    simpa using ht
  unfold utteranceCheck
  rw [if_pos hc]
  dsimp only
  rw [if_pos hrej]
  exact ⟨rfl, rfl, rfl, rfl, rfl, rfl, rfl, rfl⟩

/-- C5 witness: the amended theorem applied at the concrete reject scenario. -/
theorem C5_witness :
    (utteranceCheck silentEnv 2000 preUtteranceState).question_count =
      preUtteranceState.question_count ∧
    (utteranceCheck silentEnv 2000 preUtteranceState).sent =
      (preUtteranceState.sent ++
        [OutMsg.json_transcript (silentEnv.stt preUtteranceState.audio_buffer_raw.join)])
        ++ reminder_msgs silentEnv.tts ∧
    (utteranceCheck silentEnv 2000 preUtteranceState).awaiting_response = false := by
  have h := C5_theorem silentEnv 2000 preUtteranceState rfl (by decide) (by decide)
  exact ⟨h.1, h.2.2.2.2.2.1, h.2.2.2.2.2.2.1⟩

/-! ## Claim C9 -/

/-- C9: if the Whisper model is unavailable, `transcribe_audio_bytes` returns
the fixed sentinel; the handler's rejection test (empty/whitespace or leading
"Error") does not catch the sentinel, so the utterance is treated as a valid
answer: persisted as a Response, appended to the history as a user turn, and
fed to the AI backend as the latest user text. -/
theorem C9_theorem (env : Env) (now : Nat) (st : LoopState)
    (hstt : env.stt = fun audio => transcribe_audio_bytes none audio)
    (hsp : st.speech_detected = true)
    (ht : 1000 < now - st.last_speech_frame_time) :
    transcribe_audio_bytes none st.audio_buffer_raw.join = stt_unavailable_sentinel ∧
    ((py_strip stt_unavailable_sentinel).data.isEmpty
      || py_startswith stt_unavailable_sentinel "Error") = false ∧
    (utteranceCheck env now st).responses = st.responses ++ [stt_unavailable_sentinel] ∧
    (utteranceCheck env now st).conversation_history =
      (st.conversation_history ++ [ConvTurn.mk "user" stt_unavailable_sentinel]) ++
        [ConvTurn.mk "assistant" (env.ai env.resume
          (st.conversation_history ++ [ConvTurn.mk "user" stt_unavailable_sentinel])
          stt_unavailable_sentinel)] ∧
    (utteranceCheck env now st).questions = st.questions ++
      [env.ai env.resume
        (st.conversation_history ++ [ConvTurn.mk "user" stt_unavailable_sentinel])
        stt_unavailable_sentinel] ∧
    (utteranceCheck env now st).question_count = st.question_count + 1 := by
  have hc : (st.speech_detected && decide (1000 < now - st.last_speech_frame_time)) = true := by
    rw [hsp]
    simpa using ht
  unfold utteranceCheck
  rw [if_pos hc]
  dsimp only
  rw [hstt]
  dsimp only [transcribe_audio_bytes]
  rw [if_neg (show ¬(((py_strip stt_unavailable_sentinel).data.isEmpty
    || py_startswith stt_unavailable_sentinel "Error") = true) from by decide)]
  exact ⟨rfl, by decide, rfl, rfl, rfl, rfl⟩

/-- C9 witness: the theorem applied at the concrete whisper-down environment. -/
theorem C9_witness :
    (utteranceCheck whisperDownEnv 2000 preUtteranceState).responses =
      preUtteranceState.responses ++ [stt_unavailable_sentinel] ∧
    (utteranceCheck whisperDownEnv 2000 preUtteranceState).question_count =
      preUtteranceState.question_count + 1 ∧
    ((py_strip stt_unavailable_sentinel).data.isEmpty
      || py_startswith stt_unavailable_sentinel "Error") = false := by
  have h := C9_theorem whisperDownEnv 2000 preUtteranceState rfl rfl (by decide)
  exact ⟨h.2.2.1, h.2.2.2.2.2, h.2.1⟩

/-! ## Claim C6 -/

set_option maxRecDepth 1000000 in
/-- C6 counterexample: a candidate who sends only silence for more than two
60-second windows after a question receives *two* reminders, not exactly one
(the silence timer resets after each reminder); no transcript is sent and no
Response is persisted. -/
theorem C6_counterexample :
    reminderCount c6run.sent = 2 ∧
    transcriptCount c6run.sent = 0 ∧
    c6run.responses = [] ∧
    c6run.question_count = postQuestionState.question_count := by
  decide

/-- C6 (amended): while the candidate sends only silence (every frame
classified non-speech) after a question, no Response is persisted, no
transcript is sent and the counter is unchanged; and a reminder is emitted
exactly each time a full 60-second window elapses since the silence timer
(re)started — the timer then resets, so a longer silence yields one reminder
per window rather than exactly one overall. -/
theorem C6_theorem :
    (∀ (env : Env) (st : LoopState) (now : Nat) (b : List Nat),
      (∀ f, env.vad f = false) → st.speech_detected = false → st.endedReason = none →
      now ≤ env.deadline → st.question_count < MAX_QUESTION_EXCHANGES →
      (wsStep env now (InMsg.bytes b) st).responses = st.responses ∧
      transcriptCount (wsStep env now (InMsg.bytes b) st).sent = transcriptCount st.sent ∧
      (wsStep env now (InMsg.bytes b) st).question_count = st.question_count ∧
      (wsStep env now (InMsg.bytes b) st).speech_detected = false) ∧
    (∀ (env : Env) (st : LoopState) (now : Nat) (b : List Nat) (s : Nat),
      (∀ f, env.vad f = false) → st.speech_detected = false → st.endedReason = none →
      now ≤ env.deadline → st.question_count < MAX_QUESTION_EXCHANGES →
      st.awaiting_response = true → st.silence_start = some s → max_silence_ms ≤ now - s →
      VAD_FRAME_BYTES ≤ ((st.audio_buffer_raw ++ [b]).join).length →
      (wsStep env now (InMsg.bytes b) st).sent = st.sent ++ reminder_msgs env.tts ∧
      (wsStep env now (InMsg.bytes b) st).silence_start = none) := by
  constructor
  · intro env st now b hvad hsp hend htime hcount
    simp only [wsStep]
    split
    · rename_i h
      rw [hend] at h
      simp at h
    · split
      · rename_i h
        rw [Bool.or_eq_true, decide_eq_true_eq, decide_eq_true_eq] at h
        rcases h with h | h
        · exact absurd h (Nat.not_lt.mpr htime)
        · exact absurd h (Nat.not_le.mpr hcount)
      · split
        · exact ⟨rfl, rfl, rfl, hsp⟩
        · split
          · rename_i hv
            rw [hvad _] at hv
            simp at hv
          · have hf := silenceThenUtterance_silent_fields env now
              { st with audio_buffer_raw := [List.drop VAD_FRAME_BYTES (st.audio_buffer_raw ++ [b]).join] } hsp
            exact ⟨hf.1, hf.2.2.2.2, hf.2.1, hf.2.2.1⟩
  · intro env st now b s hvad hsp hend htime hcount hA hs hth hlen
    simp only [wsStep]
    split
    · rename_i h
      rw [hend] at h
      simp at h
    · split
      · rename_i h
        rw [Bool.or_eq_true, decide_eq_true_eq, decide_eq_true_eq] at h
        rcases h with h | h
        · exact absurd h (Nat.not_lt.mpr htime)
        · exact absurd h (Nat.not_le.mpr hcount)
      · split
        · rename_i h
          exact absurd h (Nat.not_lt.mpr hlen)
        · split
          · rename_i hv
            rw [hvad _] at hv
            simp at hv
          · unfold silenceThenUtterance
            dsimp only
            rw [hA, hsp, hs]
            simp [hth, handle_no_response, sendAll]

set_option maxRecDepth 1000000 in
/-- C6 witness: the amended theorem applied at the concrete scenario of a
silent frame arriving 60 s after the silence timer started. -/
theorem C6_witness :
    (wsStep silentEnv 60000 (InMsg.bytes silent_frame) silenceTimedState).sent =
      silenceTimedState.sent ++ reminder_msgs silentEnv.tts ∧
    (wsStep silentEnv 60000 (InMsg.bytes silent_frame) silenceTimedState).silence_start = none := by
  exact C6_theorem.2 silentEnv silenceTimedState 60000 silent_frame 0
    (fun f => rfl) rfl rfl (by decide) (by decide) rfl rfl (by decide) (by decide)

/-! ## Claim C3 -/

set_option maxRecDepth 1000000 in
/-- C3 evaluation at the failing input: after one silent frame, one
speech-classified frame, and a silent frame past the 1000 ms threshold, the
loop emits exactly one utterance and returns to the non-speaking state — but
the utterance's audio is empty: every drained classifier frame (including the
speech frame) was discarded, so the emitted audio does not contain the
speech-classified frame's bytes. -/
theorem C3_theorem :
    c3run.utterances = [[]] ∧
    decide (List.IsInfix speech_frame (c3run.utterances.getD 0 [])) = false ∧
    c3run.speech_detected = false ∧
    c3run.endedReason = none := by
  decide
